import Mathlib

/-!
Verification of the `lifcura-uploader-server` request-gateway logic
(`src/index.js`): CORS origin admission, multipart file intake, storage-key
generation, and the upload / delete request handlers.

Modelling conventions:
- JavaScript strings that undergo per-code-unit operations (the filename
  sanitization regex) are embedded as `List Nat` of UTF-16 code units;
  `charsUtf16` / `stringUtf16` encode Lean characters/strings into that form.
  Strings that are only compared or passed through are embedded as `String`,
  except the mimetype, which is a `List Char` so its `startsWith` check is
  kernel-computable.
- JavaScript truthiness (`!x`) is modelled explicitly: `JSValue.truthy` for
  arbitrary request-body values, `Option String` with the empty string treated
  as falsy elsewhere (`jsOrElse`, the CORS origin check).
- The external collaborators (the ImageKit SDK, the express/cors/multer
  middleware machinery) are not part of the repository; the handler is made a
  pure function of the collaborator's outcome, and the pieces of middleware
  behaviour a claim depends on are modelled from the spec where noted.
-/

/-! ## UTF-16 encoding of filenames -/

/-- Encode one Unicode character as its UTF-16 code units (JavaScript's string
representation): one unit below U+10000, a surrogate pair above. -/
def utf16EncodeChar (c : Char) : List Nat :=
  if c.toNat < 65536 then [c.toNat]
  else [55296 + (c.toNat - 65536) / 1024, 56320 + (c.toNat - 65536) % 1024]

/-- UTF-16 code units of a character list. -/
def charsUtf16 (cs : List Char) : List Nat := (cs.map utf16EncodeChar).flatten

/-- UTF-16 code units of a Lean string. -/
def stringUtf16 (s : String) : List Nat := charsUtf16 s.data

/-! ## Name Generator (src/index.js lines 79-80) -/

/-- Membership in the character class `[a-zA-Z0-9._-]` of the sanitization
regex, on UTF-16 code units: letters, digits, `.` (46), `_` (95), `-` (45). -/
def isSafeCodeUnit (u : Nat) : Bool :=
  (97 ≤ u && u ≤ 122) || (65 ≤ u && u ≤ 90) || (48 ≤ u && u ≤ 57)
    || u == 46 || u == 95 || u == 45

/-- One step of `originalname.replace(/[^a-zA-Z0-9._-]/g, '_')`: the regex has
no `u` flag, so it matches and replaces individual UTF-16 code units. -/
def sanitizeUnit (u : Nat) : Nat := if isSafeCodeUnit u then u else 95

/-- `safeName` from src/index.js line 79: every code unit outside
`[a-zA-Z0-9._-]` is replaced by `_` (code 95). -/
def safeName (units : List Nat) : List Nat := units.map sanitizeUnit

/-- Decimal rendering of a natural number as ASCII digit code units, as
JavaScript's number-to-string conversion does for `Date.now()` values. -/
def natDigits (n : Nat) : List Nat :=
  if n < 10 then [48 + n]
  else natDigits (n / 10) ++ [48 + n % 10]
termination_by n
decreasing_by exact Nat.div_lt_self (by omega) (by omega)

/-- The generated storage key of src/index.js line 80:
the template literal `${Date.now()}-${uuidv4()}-${safeName}`. -/
def mkFileName (now : Nat) (uuid : List Nat) (originalname : List Nat) : List Nat :=
  natDigits now ++ [45] ++ uuid ++ [45] ++ safeName originalname

/-- Characters a canonical v4 UUID string consists of: lowercase hex digits
and hyphens. -/
def isUuidCodeUnit (u : Nat) : Bool :=
  (48 ≤ u && u ≤ 57) || (97 ≤ u && u ≤ 102) || u == 45

/-- Sanitization as the spec sentence words it, at the Unicode-character level
(refinement definition following the spec, for comparison with `safeName`):
every character outside the class is replaced by a single `_`. -/
def sanitizeSpecC2 (cs : List Char) : List Char :=
  cs.map (fun c => if isSafeCodeUnit c.toNat then c else '_')

/-! ## JavaScript truthiness -/

/-- A JSON/JavaScript value as it can appear in a parsed request body field;
`undefined` stands for an absent field (or an absent body, since
`req.body || {}` yields an object without the field). -/
inductive JSValue where
  | undefined
  | null
  | bool (b : Bool)
  | num (n : Int)
  | str (s : String)
deriving DecidableEq

/-- JavaScript truthiness of a `JSValue` (`!x` negates this). Numbers are
modelled as integers: `0` is the falsy numeric value. -/
def JSValue.truthy : JSValue → Bool
  | .undefined => false
  | .null => false
  | .bool b => b
  | .num n => n != 0
  | .str s => s != ""

/-- The idiom `e.message || defaultMsg`: an absent or empty message (both
falsy) falls back to the default. -/
def jsOrElse (m : Option String) (d : String) : String :=
  match m with
  | none => d
  | some s => if s = "" then d else s

/-! ## Origin Allow-List (src/index.js lines 34-47) -/

/-- The `corsOptions.origin` function of src/index.js lines 35-40, returning
`true` for allow and `false` for deny. `if (!origin) return callback(null,
true)` allows both an absent origin (`undefined`) and an empty-string origin,
since both are falsy; otherwise the origin must be exactly (`includes`,
case-sensitive) one of the configured allowed origins. -/
def corsOriginAllow (allowedOrigins : List String) (origin : Option String) : Bool :=
  match origin with
  | none => true
  | some o => if o = "" then true else allowedOrigins.contains o

/-- The `methods` entry of `corsOptions` (src/index.js line 41), the method
list advertised on pre-flight responses. -/
def corsMethods : List String := ["GET", "POST", "DELETE", "OPTIONS"]

/-- The `allowedHeaders` entry of `corsOptions` (src/index.js line 42). -/
def corsAllowedHeaders : List String := ["Content-Type", "Authorization"]

/-- The `credentials` entry of `corsOptions` (src/index.js line 43). -/
def corsCredentials : Bool := false

/-- The pre-flight decision: `app.options('*', cors(corsOptions))`
(src/index.js line 47) registers the same `corsOptions`, so pre-flight
requests go through the same origin function as actual requests. -/
def preflightAllow (allowedOrigins : List String) (origin : Option String) : Bool :=
  corsOriginAllow allowedOrigins origin

/-! ## File Intake (src/index.js lines 51-54) -/

/-- An uploaded file as multer's memory storage exposes it to the handler
(`req.file`): original name (UTF-16 code units), mimetype, and the buffered
bytes. -/
structure InboundFile where
  originalname : List Nat
  mimetype : List Char
  buffer : List Nat
deriving DecidableEq

/-- The configured multer limit `10 * 1024 * 1024` (src/index.js line 53). -/
def uploadSizeLimit : Nat := 10 * 1024 * 1024

/-- Modelled from the spec: multer's enforcement of `limits.fileSize` is
library code not under src/ (src/index.js line 53 only configures the limit).
Per the spec, a decoded body exceeding the 10 MiB cap "fails the request with
a client-error before the handler body executes"; a file within the cap is
passed through to the handler. -/
def fileIntake (f : InboundFile) : Except String InboundFile :=
  if f.buffer.length > uploadSizeLimit then .error "LIMIT_FILE_SIZE"
  else .ok f

/-! ## Upload and delete handlers (src/index.js lines 71-114) -/

/-- A JSON response body produced by the handlers. -/
inductive Body where
  | error (msg : String)
  | uploaded (url : String) (fileId : Option String)
  | okTrue
deriving DecidableEq

/-- The argument object of the `imagekit.upload` call (src/index.js
lines 83-90). -/
structure UploadCall where
  file : List Nat
  fileName : List Nat
  folder : String
  useUniqueFileName : Bool
  isPrivateFile : Bool
  tags : List String
deriving DecidableEq

/-- Outcome of the awaited `imagekit.upload` call: either it throws (with an
optional `message` on the error), or it returns a result whose `url` and
`fileId` fields may each be missing (`result?.url` also covers a missing
result object: it reads as an absent url). -/
inductive UploadOutcome where
  | throws (msg : Option String)
  | returns (url : Option String) (fileId : Option String)
deriving DecidableEq

/-- Result of running a handler: HTTP status, JSON body, and the gateway
upload call it made, if any. -/
structure HandlerResult where
  status : Nat
  body : Body
  uploadCall : Option UploadCall
deriving DecidableEq

/-- The argument object of the `imagekit.upload` call on the successful
validation path, for a given clock value, UUID and file. -/
def theUploadCall (now : Nat) (uuid : List Nat) (folder : String) (f : InboundFile) :
    UploadCall :=
  { file := f.buffer
    fileName := mkFileName now uuid f.originalname
    folder := folder
    useUniqueFileName := false
    isPrivateFile := false
    tags := ["lifcura", "product"] }

/-- The `POST /upload` handler (src/index.js lines 71-101) as a function of
the parsed file (`none` when no `file` field was present), the clock and UUID
values, the configured folder, and the gateway call's outcome. `res.json`
without an explicit status responds 200. -/
def uploadHandler (now : Nat) (uuid : List Nat) (folder : String)
    (file : Option InboundFile) (outcome : UploadOutcome) : HandlerResult :=
  match file with
  | none => ⟨400, .error "No file provided", none⟩
  | some f =>
    if !("image/".data.isPrefixOf f.mimetype) then
      ⟨400, .error "Only image uploads are allowed", none⟩
    else
      let call := theUploadCall now uuid folder f
      match outcome with
      | .throws msg => ⟨500, .error (jsOrElse msg "Server error"), some call⟩
      | .returns url fileId =>
        match url with
        | none => ⟨500, .error "ImageKit upload failed", some call⟩
        | some u =>
          if u = "" then ⟨500, .error "ImageKit upload failed", some call⟩
          else ⟨200, .uploaded u fileId, some call⟩

/-- Outcome of the awaited `imagekit.deleteFile` call. -/
inductive DeleteOutcome where
  | throws (msg : Option String)
  | success
deriving DecidableEq

/-- Result of the delete handler: HTTP status, JSON body, and the `fileId`
passed to the gateway delete call, if that call was made. -/
structure DeleteResult where
  status : Nat
  body : Body
  deleteCall : Option JSValue
deriving DecidableEq

/-- The `DELETE /image` handler (src/index.js lines 104-114) as a function of
the body's `fileId` field (`JSValue.undefined` when absent) and the gateway
call's outcome. `if (!fileId)` rejects every falsy `fileId`. -/
def deleteHandler (fileId : JSValue) (outcome : DeleteOutcome) : DeleteResult :=
  if !fileId.truthy then ⟨400, .error "fileId is required", none⟩
  else
    match outcome with
    | .throws msg => ⟨500, .error (jsOrElse msg "Server error"), some fileId⟩
    | .success => ⟨200, .okTrue, some fileId⟩

/-- Modelled from the spec: express runs `app.use(cors(corsOptions))`
(src/index.js line 46) before the route handlers, and the cors middleware
turns a denial by `corsOptions.origin` into a request-level error
(`Not allowed by CORS`) so that no route handler logic runs. -/
def handleWithCors (allowedOrigins : List String) (origin : Option String)
    (routeResult : HandlerResult) : Except String HandlerResult :=
  if corsOriginAllow allowedOrigins origin then .ok routeResult
  else .error "Not allowed by CORS"

/-! ## Helper lemmas -/

theorem natDigits_safe (n : Nat) : ∀ u ∈ natDigits n, isSafeCodeUnit u = true := by
  induction n using Nat.strong_induction_on with
  | _ n ih =>
    unfold natDigits
    split
    · intro u hu
      simp only [List.mem_singleton] at hu
      subst hu
      simp only [isSafeCodeUnit, Bool.or_eq_true, Bool.and_eq_true, decide_eq_true_eq,
        beq_iff_eq]
      omega
    · intro u hu
      rcases List.mem_append.1 hu with h1 | h2
      · exact ih (n / 10) (Nat.div_lt_self (by omega) (by omega)) u h1
      · simp only [List.mem_singleton] at h2
        subst h2
        simp only [isSafeCodeUnit, Bool.or_eq_true, Bool.and_eq_true, decide_eq_true_eq,
          beq_iff_eq]
        omega

theorem safeName_safe (l : List Nat) : ∀ u ∈ safeName l, isSafeCodeUnit u = true := by
  intro u hu
  simp only [safeName, List.mem_map] at hu
  obtain ⟨v, _, rfl⟩ := hu
  unfold sanitizeUnit
  split
  · assumption
  · decide

theorem uuid_unit_safe (u : Nat) (h : isUuidCodeUnit u = true) :
    isSafeCodeUnit u = true := by
  simp only [isUuidCodeUnit, Bool.or_eq_true, Bool.and_eq_true, decide_eq_true_eq,
    beq_iff_eq] at h
  simp only [isSafeCodeUnit, Bool.or_eq_true, Bool.and_eq_true, decide_eq_true_eq,
    beq_iff_eq]
  omega

theorem mkFileName_safe (now : Nat) (uuid : List Nat) (name : List Nat)
    (huuid : ∀ u ∈ uuid, isUuidCodeUnit u = true) :
    ∀ u ∈ mkFileName now uuid name, isSafeCodeUnit u = true := by
  intro u hu
  simp only [mkFileName, List.append_assoc, List.mem_append, List.mem_singleton] at hu
  rcases hu with h | h | h | h | h
  · exact natDigits_safe now u h
  · subst h; decide
  · exact uuid_unit_safe u (huuid u h)
  · subst h; decide
  · exact safeName_safe name u h

/-! ## Claim theorems -/

/-- C1: for every POST /upload request that contains a file whose mimetype
does not start with `image/`, the handler responds 400 with
`{error: "Only image uploads are allowed"}` and the gateway upload is never
invoked. -/
theorem C1_reject_non_image (now : Nat) (uuid : List Nat) (folder : String)
    (f : InboundFile) (outcome : UploadOutcome)
    (h : ("image/".data.isPrefixOf f.mimetype) = false) :
    uploadHandler now uuid folder (some f) outcome =
      ⟨400, .error "Only image uploads are allowed", none⟩ := by
  simp [uploadHandler, h]

theorem C1_witness :
    ("image/".data.isPrefixOf "text/plain".data) = false ∧
    uploadHandler 0 [] "/product-images" (some ⟨[], "text/plain".data, []⟩)
        (.returns none none) =
      ⟨400, .error "Only image uploads are allowed", none⟩ :=
  ⟨by decide,
   C1_reject_non_image 0 [] "/product-images" ⟨[], "text/plain".data, []⟩
     (.returns none none) (by decide)⟩

/-- C2 counterexample: the sanitization of src/index.js line 79 works on
UTF-16 code units, not characters. The single character U+1F600 is two code
units, so the code produces `__` (two underscores) where the claim's
character-wise replacement produces `_`. -/
theorem C2_counterexample :
    safeName (charsUtf16 ['😀']) = [95, 95] ∧
    sanitizeSpecC2 ['😀'] = ['_'] ∧
    safeName (charsUtf16 ['😀']) ≠ charsUtf16 (sanitizeSpecC2 ['😀']) := by decide

/-- C2 (amended): the generated storage key is
`<unixMillis>-<uuidV4>-<sanitizedName>` where the sanitized name replaces
every UTF-16 code unit outside `[A-Za-z0-9._-]` by `_` (a character above
U+FFFF is two code units and becomes `__`); consequently, for a canonically
formatted UUID, every code unit of the key lies in that class (which contains
the separating hyphens, code 45, and the timestamp digits). -/
theorem C2_amended_key (now : Nat) (uuid : List Nat) (name : List Char)
    (huuid : ∀ u ∈ uuid, isUuidCodeUnit u = true) :
    mkFileName now uuid (charsUtf16 name) =
      natDigits now ++ [45] ++ uuid ++ [45] ++ safeName (charsUtf16 name) ∧
    safeName (charsUtf16 name) = (charsUtf16 name).map sanitizeUnit ∧
    ∀ u ∈ mkFileName now uuid (charsUtf16 name), isSafeCodeUnit u = true :=
  ⟨rfl, rfl, mkFileName_safe now uuid (charsUtf16 name) huuid⟩

theorem C2_witness :
    (mkFileName 1700000000000 (charsUtf16 "0a1b2c3d-1111-4abc-8def-000000000000".data)
        (charsUtf16 "a b?.jpg".data)).all isSafeCodeUnit = true := by
  rw [List.all_eq_true]
  intro u hu
  exact (C2_amended_key 1700000000000
    (charsUtf16 "0a1b2c3d-1111-4abc-8def-000000000000".data)
    "a b?.jpg".data (by decide)).2.2 u hu

/-- C3: when the gateway upload throws, the handler responds 500 with the
error's message when a non-empty one is available and "Server error"
otherwise; when the gateway returns no usable URL (missing or empty), the
handler responds 500 with "ImageKit upload failed"; on success the response
is 200 `{url, fileId}` taken from the gateway result. -/
theorem C3_gateway_mapping (now : Nat) (uuid : List Nat) (folder : String)
    (f : InboundFile) (h : ("image/".data.isPrefixOf f.mimetype) = true) :
    (∀ m : String, m ≠ "" →
      uploadHandler now uuid folder (some f) (.throws (some m)) =
        ⟨500, .error m, some (theUploadCall now uuid folder f)⟩) ∧
    uploadHandler now uuid folder (some f) (.throws none) =
      ⟨500, .error "Server error", some (theUploadCall now uuid folder f)⟩ ∧
    uploadHandler now uuid folder (some f) (.throws (some "")) =
      ⟨500, .error "Server error", some (theUploadCall now uuid folder f)⟩ ∧
    (∀ fid, uploadHandler now uuid folder (some f) (.returns none fid) =
      ⟨500, .error "ImageKit upload failed", some (theUploadCall now uuid folder f)⟩) ∧
    (∀ fid, uploadHandler now uuid folder (some f) (.returns (some "") fid) =
      ⟨500, .error "ImageKit upload failed", some (theUploadCall now uuid folder f)⟩) ∧
    (∀ u fid, u ≠ "" →
      uploadHandler now uuid folder (some f) (.returns (some u) fid) =
        ⟨200, .uploaded u fid, some (theUploadCall now uuid folder f)⟩) := by
  refine ⟨?_, ?_, ?_, ?_, ?_, ?_⟩
  · intro m hm
    simp [uploadHandler, h, jsOrElse, hm]
  · simp [uploadHandler, h, jsOrElse]
  · simp [uploadHandler, h, jsOrElse]
  · intro fid
    simp [uploadHandler, h]
  · intro fid
    simp [uploadHandler, h]
  · intro u fid hu
    simp [uploadHandler, h, hu]

theorem C3_witness :
    uploadHandler 7 [] "/product-images" (some ⟨[], "image/png".data, [1, 2]⟩)
        (.throws (some "request failed")) =
      ⟨500, .error "request failed",
        some (theUploadCall 7 [] "/product-images" ⟨[], "image/png".data, [1, 2]⟩)⟩ :=
  (C3_gateway_mapping 7 [] "/product-images" ⟨[], "image/png".data, [1, 2]⟩
    (by decide)).1 "request failed" (by decide)

/-- C4: a DELETE /image request with no `fileId` in the body gets 400
`{error: "fileId is required"}` with no gateway delete call; if the gateway
delete throws with a (non-empty) message, the handler responds 500 with that
message; if it succeeds, the handler responds `{ok: true}`. -/
theorem C4_delete_contract :
    (∀ outcome, deleteHandler .undefined outcome =
      ⟨400, .error "fileId is required", none⟩) ∧
    (∀ fid : JSValue, fid.truthy = true → ∀ m : String, m ≠ "" →
      deleteHandler fid (.throws (some m)) = ⟨500, .error m, some fid⟩) ∧
    (∀ fid : JSValue, fid.truthy = true →
      deleteHandler fid .success = ⟨200, .okTrue, some fid⟩) := by
  refine ⟨?_, ?_, ?_⟩
  · intro outcome
    simp [deleteHandler, JSValue.truthy]
  · intro fid hfid m hm
    simp [deleteHandler, hfid, jsOrElse, hm]
  · intro fid hfid
    simp [deleteHandler, hfid]

theorem C4_witness :
    deleteHandler (.str "file_123") .success = ⟨200, .okTrue, some (.str "file_123")⟩ :=
  C4_delete_contract.2.2 (.str "file_123") (by decide)

/-- C5 counterexample: a present but empty `Origin` header is falsy, so
`corsOptions.origin` allows it even though the empty string is not in the
allow-list — the claim as stated says every present origin outside the list
is denied. -/
theorem C5_counterexample :
    "" ∉ ["http://localhost:3000"] ∧
    corsOriginAllow ["http://localhost:3000"] (some "") = true ∧
    handleWithCors ["http://localhost:3000"] (some "") ⟨200, .okTrue, none⟩ =
      .ok ⟨200, .okTrue, none⟩ :=
  ⟨by decide, by decide, rfl⟩

/-- C5 (amended): the origin admission decision allows an absent or empty
Origin, allows an Origin exactly equal (case-sensitive) to an allow-list
entry, and denies every other Origin; a denial is surfaced as a request-level
failure and the route handler's result never surfaces. -/
theorem C5_amended_origin (allowed : List String) (origin : Option String)
    (r : HandlerResult) :
    (corsOriginAllow allowed origin = true ↔
      origin = none ∨ origin = some "" ∨ ∃ o, origin = some o ∧ o ∈ allowed) ∧
    (corsOriginAllow allowed origin = true → handleWithCors allowed origin r = .ok r) ∧
    (corsOriginAllow allowed origin = false →
      handleWithCors allowed origin r = .error "Not allowed by CORS") := by
  refine ⟨?_, ?_, ?_⟩
  · cases origin with
    | none => simp [corsOriginAllow]
    | some o =>
      by_cases ho : o = ""
      · subst ho
        simp [corsOriginAllow]
      · constructor
        · intro hmem
          simp only [corsOriginAllow, if_neg ho] at hmem
          exact Or.inr (Or.inr ⟨o, rfl, List.elem_iff.mp hmem⟩)
        · intro hcases
          simp only [corsOriginAllow, if_neg ho]
          rcases hcases with h | h | ⟨o', ho', hmem⟩
          · cases h
          · rw [Option.some.injEq] at h
            exact absurd h ho
          · rw [Option.some.injEq] at ho'
            subst ho'
            exact List.elem_iff.mpr hmem
  · intro hallow
    simp [handleWithCors, hallow]
  · intro hdeny
    simp [handleWithCors, hdeny]

theorem C5_witness :
    handleWithCors ["http://localhost:3000"] (some "https://evil.example")
        ⟨200, .okTrue, none⟩ = .error "Not allowed by CORS" :=
  (C5_amended_origin ["http://localhost:3000"] (some "https://evil.example")
    ⟨200, .okTrue, none⟩).2.2 (by decide)

/-- C6: a file whose buffer exceeds the configured 10 MiB limit fails intake
before the upload handler runs, so every file intake passes through to the
handler has at most `10 * 1024 * 1024` bytes. -/
theorem C6_size_cap (f : InboundFile) :
    (f.buffer.length > uploadSizeLimit → fileIntake f = .error "LIMIT_FILE_SIZE") ∧
    (∀ g, fileIntake f = .ok g → g.buffer.length ≤ uploadSizeLimit) := by
  constructor
  · intro h
    simp [fileIntake, h]
  · intro g hg
    by_cases h : f.buffer.length > uploadSizeLimit
    · simp [fileIntake, h] at hg
    · simp [fileIntake, h] at hg
      subst hg
      omega

theorem C6_witness :
    fileIntake ⟨[], "image/png".data, List.replicate (10 * 1024 * 1024 + 1) 0⟩ =
      .error "LIMIT_FILE_SIZE" :=
  (C6_size_cap ⟨[], "image/png".data, List.replicate (10 * 1024 * 1024 + 1) 0⟩).1
    (by simp only [List.length_replicate, uploadSizeLimit]; omega)

/-- C7: a POST /upload request with no file part under field `file` gets 400
`{error: "No file provided"}`, with no storage key generated and no gateway
call recorded. -/
theorem C7_missing_file (now : Nat) (uuid : List Nat) (folder : String)
    (outcome : UploadOutcome) :
    uploadHandler now uuid folder none outcome =
      ⟨400, .error "No file provided", none⟩ := rfl

/-- C8: on the successful validation path (file present, image mimetype), the
gateway upload is called exactly once, with the file bytes, the generated
key, the configured folder, tags `["lifcura", "product"]`,
`useUniqueFileName := false` and `isPrivateFile := false`. -/
theorem C8_gateway_args (now : Nat) (uuid : List Nat) (folder : String)
    (f : InboundFile) (outcome : UploadOutcome)
    (h : ("image/".data.isPrefixOf f.mimetype) = true) :
    (uploadHandler now uuid folder (some f) outcome).uploadCall =
      some { file := f.buffer
             fileName := mkFileName now uuid f.originalname
             folder := folder
             useUniqueFileName := false
             isPrivateFile := false
             tags := ["lifcura", "product"] } := by
  cases outcome with
  | throws msg => simp [uploadHandler, h, theUploadCall]
  | returns url fid =>
    cases url with
    | none => simp [uploadHandler, h, theUploadCall]
    | some u =>
      by_cases hu : u = "" <;> simp [uploadHandler, h, theUploadCall, hu]

theorem C8_witness :
    (uploadHandler 42 [97] "/product-images" (some ⟨[120], "image/png".data, [9]⟩)
        (.returns (some "https://ik.example/x.jpg") (some "abc"))).uploadCall =
      some { file := [9]
             fileName := mkFileName 42 [97] [120]
             folder := "/product-images"
             useUniqueFileName := false
             isPrivateFile := false
             tags := ["lifcura", "product"] } :=
  C8_gateway_args 42 [97] "/product-images" ⟨[120], "image/png".data, [9]⟩
    (.returns (some "https://ik.example/x.jpg") (some "abc")) (by decide)

/-- C9 counterexample: the configured method list (src/index.js line 41) also
contains OPTIONS, so pre-flight responses do not advertise exactly
`{GET, POST, DELETE}` as the claim states. -/
theorem C9_counterexample :
    "OPTIONS" ∈ corsMethods ∧
    corsMethods ≠ ["GET", "POST", "DELETE"] ∧
    "OPTIONS" ∉ ["GET", "POST", "DELETE"] := by decide

/-- C9 (amended): pre-flight requests receive the same allow/deny decision as
actual requests (the same `corsOptions` object is registered for
`app.options('*')`), and the advertised methods are exactly
`{GET, POST, DELETE, OPTIONS}`, the allowed headers exactly
`{Content-Type, Authorization}`, with credentialed requests not supported. -/
theorem C9_amended_preflight (allowed : List String) (origin : Option String) :
    preflightAllow allowed origin = corsOriginAllow allowed origin ∧
    corsMethods = ["GET", "POST", "DELETE", "OPTIONS"] ∧
    corsAllowedHeaders = ["Content-Type", "Authorization"] ∧
    corsCredentials = false :=
  ⟨rfl, rfl, rfl, rfl⟩

/-- C10: every falsy `fileId` body value — absent (`undefined`), `null`, the
empty string, `0`, or `false` — makes the delete handler respond 400
`{error: "fileId is required"}` without invoking the gateway delete. -/
theorem C10_falsy_fileId :
    (∀ (fid : JSValue) (outcome : DeleteOutcome), fid.truthy = false →
      deleteHandler fid outcome = ⟨400, .error "fileId is required", none⟩) ∧
    JSValue.undefined.truthy = false ∧
    JSValue.null.truthy = false ∧
    (JSValue.str "").truthy = false ∧
    (JSValue.num 0).truthy = false ∧
    (JSValue.bool false).truthy = false := by
  refine ⟨?_, rfl, rfl, by decide, by decide, rfl⟩
  intro fid outcome h
  simp [deleteHandler, h]

theorem C10_witness :
    deleteHandler (.num 0) .success = ⟨400, .error "fileId is required", none⟩ :=
  C10_falsy_fileId.1 (.num 0) .success (by decide)
